import Mathlib

/-!
Shallow embedding of the once-primitives of the toolbelt crate
(src/once.rs and the Defer type of src/lib.rs), together with proofs
of the specified properties.

Modelling conventions:
- Atomic cells become plain fields of a state record; every operation
  takes the pre-state and returns its result together with the
  post-state, mirroring the source line by line.
- An atomic swap(true) / fetch_or(true) is modelled by reading the old
  flag, setting the field to true, and branching on the old value,
  exactly as the source does.
- A Rust panic! is a distinct outcome constructor, so "fails fatally"
  and "returns Err" are distinguishable in every result type.
- Rust error strings carry a type-name interpolation (InitOnce<T>);
  the embedding keeps the surrounding text and drops the type name.
- Closures passed to get_or_init / execute are observed through the
  embedding by returning how often they were invoked (a Nat) or the
  value they were handed (an Option), since that is the only way the
  source lets them interact with the primitive.
-/

namespace Toolbelt

/-- Outcome of one call in the embedding: a normal return value, a
recoverable error value (Rust Err), or a fatal abort of the calling
thread (Rust panic). -/
inductive RRes (ε α : Type) where
  | ok : α → RRes ε α
  | err : ε → RRes ε α
  | panic : String → RRes ε α

/-- True exactly when the outcome is a fatal abort. -/
def RRes.isPanic {ε α : Type} : RRes ε α → Bool
  | .panic _ => true
  | _ => false

/-- State of InitOnce from src/once.rs: the contents of the
UnsafeCell (an optional value) and the AtomicBool lock flag. -/
structure InitOnce (T : Type) where
  inner : Option T
  lock : Bool

/-- InitOnce::uninitialized — an empty cell with a free lock. -/
def InitOnce.uninit {T : Type} : InitOnce T := ⟨none, false⟩

/-- InitOnce::try_get — swap the lock to true; if it was already held
return None; otherwise read the slot, release the lock, and return the
contents. -/
def InitOnce.try_get {T : Type} (s : InitOnce T) : Option T × InitOnce T :=
  let prev := s.lock
  let s1 : InitOnce T := { s with lock := true }
  if prev then (none, s1)
  else
    let r := s1.inner
    (r, { s1 with lock := false })

/-- InitOnce::get — read the slot without touching the lock; panic if
the cell is uninitialized. The state is returned unchanged because the
source performs no write. -/
def InitOnce.get {T : Type} (s : InitOnce T) : RRes String T × InitOnce T :=
  match s.inner with
  | some r => (.ok r, s)
  | none => (.panic "Tried to access InitOnce before initialization", s)

/-- InitOnce::initialize — swap the lock to true; error if it was held;
error (without releasing the lock, as in the source) if the slot is
already populated; otherwise write the value and release the lock. -/
def InitOnce.init {T : Type} (s : InitOnce T) (value : T) : RRes String Unit × InitOnce T :=
  let prev := s.lock
  let s1 : InitOnce T := { s with lock := true }
  if prev then
    (.err "Tried to initialize InitOnce twice concurrently", s1)
  else if s1.inner.isSome then
    (.err "Tried to initialize InitOnce a second time", s1)
  else
    let s2 : InitOnce T := { s1 with inner := some value }
    (.ok (), { s2 with lock := false })

/-- InitOnce::get_or_init — swap the lock to true; error if it was
held; if the slot is empty call the closure and pass its result to
InitOnce::init (the source writes self.initialize(func())?, so an
error from init propagates with the lock in whatever state init left
it); then release the lock and return Ok(self.get()). The final Nat
counts how many times the closure was invoked. -/
def InitOnce.get_or_init {T : Type} (s : InitOnce T) (f : Unit → T) :
    RRes String T × InitOnce T × Nat :=
  let prev := s.lock
  let s1 : InitOnce T := { s with lock := true }
  if prev then
    (.err "Tried to initialize InitOnce twice at the same time", s1, 0)
  else if s1.inner.isNone then
    let v := f ()
    match InitOnce.init s1 v with
    | (.ok _, s2) =>
      let s3 : InitOnce T := { s2 with lock := false }
      ((InitOnce.get s3).1, s3, 1)
    | (.err e, s2) => (.err e, s2, 1)
    | (.panic m, s2) => (.panic m, s2, 1)
  else
    let s3 : InitOnce T := { s1 with lock := false }
    ((InitOnce.get s3).1, s3, 0)

/-- State of DoOnce from src/once.rs: the plain bool marker. -/
structure DoOnce where
  v : Bool

/-- DoOnce::new — marker initially false. -/
def DoOnce.new : DoOnce := ⟨false⟩

/-- DoOnce::do_once — if the marker is false, run the closure and set
the marker; otherwise do nothing. Returns the new state and whether
the closure ran. -/
def DoOnce.do_once (s : DoOnce) : DoOnce × Bool :=
  if !s.v then (⟨true⟩, true) else (s, false)

/-- DoOnce::done — reports the marker. -/
def DoOnce.done (s : DoOnce) : Bool := s.v

/-- State of DoOnceSync from src/once.rs: the AtomicBool marker. -/
structure DoOnceSync where
  v : Bool

/-- DoOnceSync::new — marker initially false. -/
def DoOnceSync.new : DoOnceSync := ⟨false⟩

/-- DoOnceSync::do_once — atomically swap the marker to true; run the
closure only if the previous value was false. Returns the new state
and whether the closure ran. -/
def DoOnceSync.do_once (s : DoOnceSync) : DoOnceSync × Bool :=
  let prev := s.v
  (⟨true⟩, !prev)

/-- DoOnceSync::done — an atomic load of the marker. -/
def DoOnceSync.done (s : DoOnceSync) : Bool := s.v

/-- Runs n sequential DoOnce::do_once calls, counting how many of them
executed their closure. -/
def DoOnce.runSeq : DoOnce → Nat → DoOnce × Nat
  | s, 0 => (s, 0)
  | s, n + 1 =>
    let p := DoOnce.do_once s
    let q := DoOnce.runSeq p.1 n
    (q.1, (if p.2 then 1 else 0) + q.2)

/-- Runs n sequential DoOnceSync::do_once calls, counting how many of
them executed their closure. -/
def DoOnceSync.runSeq : DoOnceSync → Nat → DoOnceSync × Nat
  | s, 0 => (s, 0)
  | s, n + 1 =>
    let p := DoOnceSync.do_once s
    let q := DoOnceSync.runSeq p.1 n
    (q.1, (if p.2 then 1 else 0) + q.2)

/-- One interleaving of concurrent DoOnceSync::do_once calls: each
caller's only access to shared state is its single atomic swap, so an
interleaving is exactly an ordering of those swaps. Given the list of
callers in swap order, returns the callers whose closure executed. -/
def DoOnceSync.race {α : Type} : DoOnceSync → List α → List α
  | _, [] => []
  | s, c :: rest =>
    let p := DoOnceSync.do_once s
    if p.2 then c :: DoOnceSync.race p.1 rest
    else DoOnceSync.race p.1 rest

/-- State of Defer from src/lib.rs: the contents of the UnsafeCell (an
optional pending value) and the AtomicBool locked flag. -/
structure Defer (S : Type) where
  state : Option S
  locked : Bool

/-- Defer::new — empty slot, flag free. -/
def Defer.new {S : Type} : Defer S := ⟨none, false⟩

/-- Defer::is_deferred — reads only the slot. -/
def Defer.is_deferred {S : Type} (d : Defer S) : Bool := d.state.isSome

/-- Defer::defer — fetch_or the flag to true; panic if it was already
held; otherwise overwrite the slot and release the flag. -/
def Defer.defer {S : Type} (d : Defer S) (x : S) : RRes String Unit × Defer S :=
  let was_locked := d.locked
  let d1 : Defer S := { d with locked := true }
  if was_locked then
    (.panic "Defer::defer() called while lock was already held", d1)
  else
    (.ok (), ⟨some x, false⟩)

/-- Defer::try_defer — like defer but returns false instead of
panicking when the flag is held; returns true when the value was
stored. -/
def Defer.try_defer {S : Type} (d : Defer S) (x : S) : Bool × Defer S :=
  let was_locked := d.locked
  let d1 : Defer S := { d with locked := true }
  if was_locked then (false, d1)
  else (true, ⟨some x, false⟩)

/-- Defer::execute — fetch_or the flag to true; panic if it was
already held; otherwise take the slot's contents, run the closure on
the value if one was present, release the flag, and report whether the
closure ran. The middle component is the value handed to the closure
(none when it was not invoked). -/
def Defer.execute {S : Type} (d : Defer S) : RRes String Bool × Option S × Defer S :=
  let was_locked := d.locked
  let d1 : Defer S := { d with locked := true }
  if was_locked then
    (.panic "Defer::execute() called while lock was already held", none, d1)
  else
    match d1.state with
    | some value => (.ok true, some value, ⟨none, false⟩)
    | none => (.ok false, none, ⟨none, false⟩)

/-- Defer::try_execute — like execute but returns Err(()) instead of
panicking when the flag is held. The middle component is the value
handed to the closure (none when it was not invoked). -/
def Defer.try_execute {S : Type} (d : Defer S) : RRes Unit Bool × Option S × Defer S :=
  let was_locked := d.locked
  let d1 : Defer S := { d with locked := true }
  if was_locked then
    (.err (), none, d1)
  else
    match d1.state with
    | some value => (.ok true, some value, ⟨none, false⟩)
    | none => (.ok false, none, ⟨none, false⟩)

/-- One sequential call on a Defer, for reasoning about call
sequences. -/
inductive DeferOp (S : Type) where
  | deferOp : S → DeferOp S
  | tryDeferOp : S → DeferOp S
  | executeOp : DeferOp S
  | tryExecuteOp : DeferOp S
  | isDeferredOp : DeferOp S

/-- Applies one DeferOp; the Bool records whether the call ended in a
panic or a contention outcome (defer or execute panicked, try_defer
returned false, try_execute returned Err). -/
def Defer.step {S : Type} (d : Defer S) : DeferOp S → Defer S × Bool
  | .deferOp x =>
    let p := Defer.defer d x
    (p.2, p.1.isPanic)
  | .tryDeferOp x =>
    let p := Defer.try_defer d x
    (p.2, !p.1)
  | .executeOp =>
    let p := Defer.execute d
    (p.2.2, p.1.isPanic)
  | .tryExecuteOp =>
    let p := Defer.try_execute d
    (p.2.2, match p.1 with | .ok _ => false | _ => true)
  | .isDeferredOp => (d, false)

/-- Applies a list of DeferOps in order; the Bool records whether any
call ended in a panic or a contention outcome. -/
def Defer.runOps {S : Type} : Defer S → List (DeferOp S) → Defer S × Bool
  | d, [] => (d, false)
  | d, op :: rest =>
    let p := Defer.step d op
    let q := Defer.runOps p.1 rest
    (q.1, p.2 || q.2)

/-- C1: the claim says get_or_init on an empty cell with a free lock
invokes the closure once, stores its result, and returns Ok of it.
Evaluating the embedding at that exact input shows what the code does
instead: the closure does run once, but the nested initialize call
sees the lock already held by get_or_init itself, so the call returns
the recoverable error it propagates, stores nothing, and leaves the
lock flag set. -/
theorem C1_get_or_init_empty_bug :
    InitOnce.get_or_init (InitOnce.uninit : InitOnce Nat) (fun _ => 7) =
      (RRes.err "Tried to initialize InitOnce twice concurrently", ⟨none, true⟩, 1) ∧
    (InitOnce.try_get (⟨none, true⟩ : InitOnce Nat)).1 = none := by
  exact ⟨rfl, rfl⟩

/-- C2: the claim says a failed second initialize changes no state, so
every later operation behaves as before. Evaluating the embedding on a
cell holding 7: initialize 9 does return the descriptive error and the
value stays 7, and get still returns 7 — but the failed call leaves
the lock flag set, so a later try_get returns none where before the
failed call it returned some 7. -/
theorem C2_second_init_bug :
    InitOnce.init (⟨some 7, false⟩ : InitOnce Nat) 9 =
      (RRes.err "Tried to initialize InitOnce a second time", ⟨some 7, true⟩) ∧
    (InitOnce.try_get (⟨some 7, false⟩ : InitOnce Nat)).1 = some 7 ∧
    (InitOnce.try_get (⟨some 7, true⟩ : InitOnce Nat)).1 = none ∧
    (InitOnce.get (⟨some 7, true⟩ : InitOnce Nat)).1 = RRes.ok 7 := by
  exact ⟨rfl, rfl, rfl, rfl⟩

/-- C3 counterexample: the claim says a reentrant initialize from
inside get_or_init's critical section (lock flag held by the outer
call, slot still empty) fails fatally. At that concrete state the code
returns a recoverable error value, not a panic. -/
theorem C3_reentrant_not_fatal :
    (InitOnce.init (⟨none, true⟩ : InitOnce Nat) 5).1.isPanic = false ∧
    (InitOnce.init (⟨none, true⟩ : InitOnce Nat) 5).1 =
      RRes.err "Tried to initialize InitOnce twice concurrently" := by
  exact ⟨rfl, rfl⟩

/-- C3 amended: a reentrant initialize or get_or_init call on the same
cell (its state has the lock flag held by the outer call) fails with a
recoverable error value, does not abort, and leaves the slot's
contents uncorrupted (the state is returned unchanged and no closure
runs). -/
theorem C3_reentrant_err (T : Type) (inner : Option T) (v : T) (f : Unit → T) :
    (InitOnce.init (⟨inner, true⟩ : InitOnce T) v).1.isPanic = false ∧
    InitOnce.init (⟨inner, true⟩ : InitOnce T) v =
      (RRes.err "Tried to initialize InitOnce twice concurrently", ⟨inner, true⟩) ∧
    InitOnce.get_or_init (⟨inner, true⟩ : InitOnce T) f =
      (RRes.err "Tried to initialize InitOnce twice at the same time", ⟨inner, true⟩, 0) := by
  exact ⟨rfl, rfl, rfl⟩

/-- C6: try_get returns some v exactly when the lock flag is free and
the value v is present; it returns none (not an error) when the cell
is empty or the flag is held; equivalently its result is the slot
contents when the flag is free and none otherwise. -/
theorem C6_try_get_iff {T : Type} (s : InitOnce T) (v : T) :
    ((InitOnce.try_get s).1 = some v ↔ s.lock = false ∧ s.inner = some v) ∧
    (InitOnce.try_get s).1 = (if s.lock then none else s.inner) := by
  obtain ⟨inner, lock⟩ := s
  cases lock <;> simp [InitOnce.try_get]

/-- C10: get reads only the slot: its result does not depend on the
lock flag, it modifies neither the slot nor the flag, and when a value
is present it returns it even while the flag is held — unlike try_get,
which returns none in that case. -/
theorem C10_get_frame (T : Type) (inner : Option T) (l l1 l2 : Bool) (v : T) :
    (InitOnce.get (⟨inner, l1⟩ : InitOnce T)).1 = (InitOnce.get (⟨inner, l2⟩ : InitOnce T)).1 ∧
    (InitOnce.get (⟨inner, l⟩ : InitOnce T)).2 = ⟨inner, l⟩ ∧
    (InitOnce.get (⟨some v, true⟩ : InitOnce T)).1 = RRes.ok v ∧
    (InitOnce.try_get (⟨some v, true⟩ : InitOnce T)).1 = none := by
  cases inner <;> simp [InitOnce.get, InitOnce.try_get]

/-- Once the DoOnce marker is true, further calls change nothing and
never run the closure. -/
theorem doOnce_runSeq_marker_true (n : Nat) : DoOnce.runSeq ⟨true⟩ n = (⟨true⟩, 0) := by
  induction n with
  | zero => rfl
  | succ n ih => simp [DoOnce.runSeq, DoOnce.do_once, ih]

/-- Once the DoOnceSync marker is true, further calls change nothing
and never run the closure. -/
theorem doOnceSync_runSeq_marker_true (n : Nat) : DoOnceSync.runSeq ⟨true⟩ n = (⟨true⟩, 0) := by
  induction n with
  | zero => rfl
  | succ n ih => simp [DoOnceSync.runSeq, DoOnceSync.do_once, ih]

/-- C4: over any number n of sequential do_once calls on a fresh
DoOnce or DoOnceSync, the closure executes exactly min n 1 times
(exactly once as soon as at least one call is made), done is false
before any call and true after the first, and from a true marker the
state never changes and nothing runs again (the marker transitions
false to true at most once). -/
theorem C4_run_once_sequential (n : Nat) :
    (DoOnce.runSeq DoOnce.new n).2 = min n 1 ∧
    DoOnce.done (DoOnce.runSeq DoOnce.new n).1 = decide (1 ≤ n) ∧
    DoOnce.runSeq ⟨true⟩ n = (⟨true⟩, 0) ∧
    DoOnce.done DoOnce.new = false ∧
    (DoOnceSync.runSeq DoOnceSync.new n).2 = min n 1 ∧
    DoOnceSync.done (DoOnceSync.runSeq DoOnceSync.new n).1 = decide (1 ≤ n) ∧
    DoOnceSync.runSeq ⟨true⟩ n = (⟨true⟩, 0) ∧
    DoOnceSync.done DoOnceSync.new = false := by
  cases n with
  | zero =>
    exact ⟨rfl, rfl, doOnce_runSeq_marker_true 0, rfl, rfl, rfl, doOnceSync_runSeq_marker_true 0, rfl⟩
  | succ m =>
    refine ⟨?_, ?_, doOnce_runSeq_marker_true (m + 1), rfl, ?_, ?_, doOnceSync_runSeq_marker_true (m + 1), rfl⟩ <;>
      simp [DoOnce.runSeq, DoOnce.do_once, DoOnce.new, DoOnce.done, doOnce_runSeq_marker_true,
        DoOnceSync.runSeq, DoOnceSync.do_once, DoOnceSync.new, DoOnceSync.done,
        doOnceSync_runSeq_marker_true, Nat.succ_le_succ, Nat.min_def]

/-- After the DoOnceSync marker has been swapped to true, no later
swap in the interleaving observes false, so nobody else executes. -/
theorem DoOnceSync.race_true {α : Type} (l : List α) : DoOnceSync.race ⟨true⟩ l = [] := by
  induction l with
  | nil => rfl
  | cons c rest ih => simp [DoOnceSync.race, DoOnceSync.do_once, ih]

/-- C5: for every nonempty interleaving of concurrent do_once calls on
a fresh DoOnceSync (each caller's single shared-state access is its
atomic swap, so an interleaving is an ordering of the swaps), exactly
the first caller in swap order executes the action: never zero
callers, never more than one, under every ordering. -/
theorem C5_race_exactly_one {α : Type} (l : List α) (h : l ≠ []) :
    DoOnceSync.race DoOnceSync.new l = l.take 1 ∧
    (DoOnceSync.race DoOnceSync.new l).length = 1 := by
  match l, h with
  | c :: rest, _ =>
    have hstep : DoOnceSync.race DoOnceSync.new (c :: rest) = [c] := by
      simp [DoOnceSync.race, DoOnceSync.do_once, DoOnceSync.new, DoOnceSync.race_true]
    exact ⟨by simp [hstep], by simp [hstep]⟩

/-- C5 witness: instantiating the race theorem at a concrete
three-caller interleaving. -/
theorem C5_race_exactly_one_witness :
    DoOnceSync.race DoOnceSync.new [10, 20, 30] = ([10, 20, 30] : List Nat).take 1 ∧
    (DoOnceSync.race DoOnceSync.new ([10, 20, 30] : List Nat)).length = 1 :=
  C5_race_exactly_one [10, 20, 30] (by decide)

/-- C7: on a slot whose flag is free — a fresh slot is not pending;
defer x makes the slot pending with exactly x, overwriting whatever
was pending before (last write wins silently); execute on a pending
slot hands the closure exactly the most recently stored value, empties
the slot, and returns true; execute on an empty slot returns false and
hands the closure nothing. -/
theorem C7_deferred_slot (T : Type) (st : Option T) (x old v : T) :
    Defer.is_deferred (Defer.new : Defer T) = false ∧
    (Defer.defer (⟨st, false⟩ : Defer T) x).2 = ⟨some x, false⟩ ∧
    Defer.is_deferred (Defer.defer (⟨st, false⟩ : Defer T) x).2 = true ∧
    (Defer.defer (⟨some old, false⟩ : Defer T) x).2 = ⟨some x, false⟩ ∧
    Defer.execute (⟨some v, false⟩ : Defer T) = (RRes.ok true, some v, ⟨none, false⟩) ∧
    Defer.is_deferred (Defer.execute (⟨some v, false⟩ : Defer T)).2.2 = false ∧
    Defer.execute (⟨none, false⟩ : Defer T) = (RRes.ok false, none, ⟨none, false⟩) := by
  exact ⟨rfl, rfl, rfl, rfl, rfl, rfl, rfl⟩

/-- C8: try_execute on a slot whose flag is held returns an error and
hands the closure nothing (leaving the state as it was); on a slot
whose flag is free it behaves exactly like execute wrapped in success:
same value handed to the closure, same final state, and Ok b exactly
when execute returns b. -/
theorem C8_try_execute (T : Type) (st : Option T) (b : Bool) :
    Defer.try_execute (⟨st, true⟩ : Defer T) = (RRes.err (), none, ⟨st, true⟩) ∧
    (Defer.try_execute (⟨st, false⟩ : Defer T)).2 = (Defer.execute (⟨st, false⟩ : Defer T)).2 ∧
    ((Defer.try_execute (⟨st, false⟩ : Defer T)).1 = RRes.ok b ↔
      (Defer.execute (⟨st, false⟩ : Defer T)).1 = RRes.ok b) := by
  refine ⟨rfl, ?_, ?_⟩ <;> cases st <;> simp [Defer.try_execute, Defer.execute]

/-- C9 counterexample: try_defer on a slot whose flag is already held
returns normally (false) yet leaves the flag true, so not every
normally-returning operation leaves the flag false on the
already-locked path. -/
theorem C9_locked_path_keeps_flag :
    (Defer.try_defer (⟨none, true⟩ : Defer Nat) 5).1 = false ∧
    ((Defer.try_defer (⟨none, true⟩ : Defer Nat) 5).2).locked = true := by
  exact ⟨rfl, rfl⟩

/-- Every Defer operation applied to a state whose flag is free leaves
the flag free and ends in neither a panic nor a contention outcome. -/
theorem Defer.step_unlocked {T : Type} (st : Option T) (op : DeferOp T) :
    ∃ st', Defer.step (⟨st, false⟩ : Defer T) op = (⟨st', false⟩, false) := by
  cases op <;> cases st <;> exact ⟨_, rfl⟩

/-- Sequential runs from a free-flag state keep the flag free and
never hit a panic or contention outcome. -/
theorem Defer.runOps_unlocked {T : Type} (ops : List (DeferOp T)) :
    ∀ st : Option T, ∃ st', Defer.runOps (⟨st, false⟩ : Defer T) ops = (⟨st', false⟩, false) := by
  induction ops with
  | nil => exact fun st => ⟨st, rfl⟩
  | cons op rest ih =>
    intro st
    obtain ⟨st1, h1⟩ := Defer.step_unlocked st op
    obtain ⟨st2, h2⟩ := ih st1
    exact ⟨st2, by simp [Defer.runOps, h1, h2]⟩

/-- C9 amended: every Defer operation applied while the flag is free —
including the empty-slot paths of execute and try_execute — leaves the
flag false on return and triggers neither a panic nor a contention
result; on the already-locked paths of try_defer and try_execute the
flag is simply left as the other in-flight holder set it. Hence,
starting from Defer::new, a purely sequential caller finds the flag
free before every operation and never triggers a panic or contention
result over any sequence of calls. -/
theorem C9_sequential_flag_free (T : Type) (st : Option T) (op : DeferOp T)
    (ops : List (DeferOp T)) :
    ((Defer.step (⟨st, false⟩ : Defer T) op).1).locked = false ∧
    (Defer.step (⟨st, false⟩ : Defer T) op).2 = false ∧
    ((Defer.runOps (Defer.new : Defer T) ops).1).locked = false ∧
    (Defer.runOps (Defer.new : Defer T) ops).2 = false := by
  obtain ⟨st1, h1⟩ := Defer.step_unlocked st op
  obtain ⟨st2, h2⟩ := Defer.runOps_unlocked ops (none : Option T)
  exact ⟨by simp [h1], by simp [h1], by simp [Defer.new, h2], by simp [Defer.new, h2]⟩

end Toolbelt
